import Mathlib

/-!
Shallow embedding of `src/libraries/rush-lib/src/cli/RushPnpmCommandLineParser.ts`.

The embedding models the argument-classification policy engine
(`_validatePnpmUsage`), the constructor tail that runs it, the environment
merger and the invocation coordinator (`_execute` / `execute`), and the
post-invocation synchronizer (`_postExecute`).  External collaborators
(terminal output, the configuration provider, the subprocess service and the
file-system service) are modelled as opaque inputs and as recorded effects.
-/

/-- Mirrors `RUSH_SKIP_CHECKS_PARAMETER` (source line 26). -/
def RUSH_SKIP_CHECKS_PARAMETER : String := "--rush-skip-checks"

/-- One character of the `[a-z]` class of the verb regular expression. -/
def isLowerAlpha (c : Char) : Bool :=
  ('a' ≤ c && c ≤ 'z')

/-- One character of the `[a-z0-9-]` class of the verb regular expression. -/
def isVerbTailChar (c : Char) : Bool :=
  ('a' ≤ c && c ≤ 'z') || ('0' ≤ c && c ≤ '9') || c = '-'

/-- Mirrors the test of the regular expression on source line 154: a full
match requires a nonempty string whose first character is a lowercase letter
and whose remaining characters are lowercase letters, digits or hyphens. -/
def isVerbPattern (s : String) : Bool :=
  match s.data with
  | [] => false
  | c :: cs => isLowerAlpha c && cs.all isVerbTailChar

/-- Outcome of one run of the classification policy engine.  `allow` models
the paths that return normally without a warning, `allowWithWarning` the
paths that print a warning and return normally, and `reject` the paths that
throw `AlreadyReportedError`. -/
inductive Decision where
  | allow
  | allowWithWarning
  | reject
deriving DecidableEq, Repr

/-- Result of `_validatePnpmUsage`: the decision, the (possibly mutated)
argument list, and the value left in the `_commandName` field (`none` models
the field never being assigned on that path). -/
structure ClassifyResult where
  decision : Decision
  args : List String
  commandName : Option String
deriving DecidableEq, Repr

/-- The install-family verbs of the switch on source lines 198-204. -/
def installFamilyVerbs : List String :=
  ["add", "install", "i", "install-test", "it"]

/-- The state-mutating verbs of the switch on source lines 216-225. -/
def stateMutatingVerbs : List String :=
  ["link", "ln", "remove", "rm", "unlink", "update", "up"]

/-- The known-safe verbs of the switch on source lines 238-259. -/
def knownSafeVerbs : List String :=
  ["audit", "exec", "list", "ls", "outdated", "pack", "patch", "patch-commit",
   "prune", "publish", "rebuild", "rb", "root", "run", "start", "store",
   "test", "t", "why"]

/-- Mirrors the switch on source lines 185-273, entered after the statement
`this._commandName = commandName` on line 181: every branch therefore leaves
the verb recorded in the `commandName` field, and the blocked verb, the
install-family verbs and unknown verbs throw (decision `reject`). -/
def applyPolicy (commandName : String) (args : List String) : ClassifyResult :=
  if commandName = "import" then
    { decision := Decision.reject, args := args, commandName := some commandName }
  else if commandName ∈ installFamilyVerbs then
    { decision := Decision.reject, args := args, commandName := some commandName }
  else if commandName ∈ stateMutatingVerbs then
    { decision := Decision.allowWithWarning, args := args, commandName := some commandName }
  else if commandName ∈ knownSafeVerbs then
    { decision := Decision.allow, args := args, commandName := some commandName }
  else
    { decision := Decision.reject, args := args, commandName := some commandName }

/-- Mirrors `_validatePnpmUsage` (source lines 129-276).  `firstArg` of the
source is `pnpmArgs.headD ""`, inlined here.  The in-place `shift()` of line
131 becomes `drop 1`, and the `splice(1, 1)` of line 166 becomes
`take 1 ++ drop 2`.  A thrown `AlreadyReportedError` is the `reject`
decision with the list left as it was at the throw site. -/
def validatePnpmUsage (pnpmArgs : List String) : ClassifyResult :=
  if pnpmArgs.head? = some RUSH_SKIP_CHECKS_PARAMETER then
    { decision := Decision.allow, args := pnpmArgs.drop 1, commandName := none }
  else if pnpmArgs.length = 0 then
    { decision := Decision.allow, args := pnpmArgs, commandName := none }
  else if "-h" ∈ pnpmArgs ∨ "--help" ∈ pnpmArgs ∨ "-?" ∈ pnpmArgs then
    { decision := Decision.allow, args := pnpmArgs, commandName := none }
  else if pnpmArgs.length = 1 ∧ (pnpmArgs.headD "" = "-v" ∨ pnpmArgs.headD "" = "--version") then
    { decision := Decision.allow, args := pnpmArgs, commandName := none }
  else if !(isVerbPattern (pnpmArgs.headD "")) then
    { decision := Decision.reject, args := pnpmArgs, commandName := none }
  else if pnpmArgs[1]? = some RUSH_SKIP_CHECKS_PARAMETER then
    { decision := Decision.allow, args := pnpmArgs.take 1 ++ pnpmArgs.drop 2, commandName := none }
  else if RUSH_SKIP_CHECKS_PARAMETER ∈ pnpmArgs then
    { decision := Decision.reject, args := pnpmArgs, commandName := none }
  else
    applyPolicy (pnpmArgs.headD "") pnpmArgs

/-- Fields of the parser object that survive the constructor.  `pnpmArgs`
models the `_pnpmArgs` field: it is `none` when the assignment on source
line 108 was skipped because `_validatePnpmUsage` threw (the constructor
catch block on lines 109-114 swallows `AlreadyReportedError`). -/
structure ParserState where
  pnpmArgs : Option (List String)
  commandName : Option String
deriving DecidableEq, Repr

/-- Mirrors the tail of the constructor (source lines 102-114), after the
configuration prerequisites of lines 53-100 have succeeded: run the
classification engine on the argument list; on a throw the `_pnpmArgs`
field is left unassigned, while `_commandName` holds whatever the engine
stored before throwing. -/
def construct (argvTail : List String) : ParserState :=
  let r := validatePnpmUsage argvTail
  if r.decision = Decision.reject then
    { pnpmArgs := none, commandName := r.commandName }
  else
    { pnpmArgs := some r.args, commandName := r.commandName }

/-- Environment maps are modelled as association lists with unique keys
(`EnvironmentMap` behaves as a map from names to values). -/
abbrev EnvMap := List (String × String)

/-- Mirrors `EnvironmentMap.get`: the value bound to `key`, if any. -/
def envGet (env : EnvMap) (key : String) : Option String :=
  match env with
  | [] => none
  | p :: rest => if p.1 = key then some p.2 else envGet rest key

/-- Mirrors `EnvironmentMap.set`: replace the binding of `key` or append a
new one. -/
def envSet (env : EnvMap) (key value : String) : EnvMap :=
  match env with
  | [] => [(key, value)]
  | p :: rest => if p.1 = key then (key, value) :: rest else p :: envSet rest key value

/-- One entry of `rushConfiguration.pnpmOptions.environmentVariables`: a key
together with its `value` and `override` members (source line 289). -/
structure EnvEntry where
  key : String
  value : String
  override : Bool
deriving DecidableEq, Repr

/-- Mirrors one iteration of the loop on source lines 289-299: an entry with
`override` set always wins; otherwise it is applied only when the map does
not yet define the key. -/
def applyEnvEntry (env : EnvMap) (e : EnvEntry) : EnvMap :=
  if e.override then
    envSet env e.key e.value
  else if envGet env e.key = none then
    envSet env e.key e.value
  else
    env

/-- Mirrors source lines 281-286: copy the process environment, then set
`NPM_CONFIG_WORKSPACE_DIR` unconditionally and, when a store path is
configured, `NPM_CONFIG_STORE_DIR` unconditionally. -/
def injectBuiltins (baseEnv : EnvMap) (workspaceFolder : String)
    (pnpmStorePath : Option String) : EnvMap :=
  let m1 := envSet baseEnv "NPM_CONFIG_WORKSPACE_DIR" workspaceFolder
  match pnpmStorePath with
  | some storePath => envSet m1 "NPM_CONFIG_STORE_DIR" storePath
  | none => m1

/-- The whole environment-merge step of `_execute` (source lines 281-300):
built-in injections first, then the declared entries in order.  An absent
`environmentVariables` object is the empty entry list. -/
def mergeEnvironment (baseEnv : EnvMap) (workspaceFolder : String)
    (pnpmStorePath : Option String) (environmentVariables : List EnvEntry) : EnvMap :=
  environmentVariables.foldl applyEnvEntry (injectBuiltins baseEnv workspaceFolder pnpmStorePath)

/-- The configuration values `_execute` and `_postExecute` read from the
configuration provider. -/
structure RushConfig where
  workspaceFolder : String
  pnpmStorePath : Option String
  environmentVariables : List EnvEntry
deriving Repr

/-- The `SpawnSyncReturns` fields inspected by `_execute` (source lines
310-316): a spawn-level error, and the exit status of the child (which is
null when the child terminated without a status). -/
structure SpawnResult where
  error : Option String
  status : Option Int
deriving DecidableEq, Repr

/-- The file-system effects of `_postExecute`, in the order they are
performed: the recursive copy of the temporary patches folder (source lines
338-341) and the shrinkwrap-file sync (source lines 344-347). -/
inductive FsAction where
  | copyPatchesFolder
  | syncShrinkwrapFile
deriving DecidableEq, Repr

/-- Mirrors `_postExecute` (source lines 319-358) as the list of file-system
actions it performs: nothing when `_commandName` is unset, nothing for any
verb other than `patch-commit`, and for `patch-commit` the copy followed by
the sync, guarded by the existence of the temporary patches folder. -/
def postExecute (commandName : Option String) (tempPatchesFolderExists : Bool) :
    List FsAction :=
  match commandName with
  | none => []
  | some c =>
    if c = "patch-commit" then
      if tempPatchesFolderExists then
        [FsAction.copyPatchesFolder, FsAction.syncShrinkwrapFile]
      else []
    else []

/-- Observable outcome of one call to `execute` (source lines 117-127
together with `_execute`, lines 278-317): the final `process.exitCode`, the
flag that an exception escaped `execute`, the fact that the subprocess
service was invoked together with the argument list handed to it (`none`
models the unassigned `_pnpmArgs` field), the merged child environment, and
the file-system actions of the post-invocation synchronizer. -/
structure ExecuteOutcome where
  exitCode : Int
  threw : Bool
  spawnInvoked : Bool
  spawnArgs : Option (List String)
  spawnEnv : EnvMap
  fsActions : List FsAction
deriving DecidableEq, Repr

/-- Mirrors `execute` (source lines 117-127): set `process.exitCode` to 1,
run `_execute`, and run `_postExecute` only when the exit code is 0.
`_execute` (source lines 278-317) always reaches the `Executable.spawnSync`
call on line 302 - nothing between the start of `execute` and that call can
return early - and then throws on a spawn-level error or a null status,
otherwise copies the child status into `process.exitCode`. -/
def execute (cfg : RushConfig) (baseEnv : EnvMap) (st : ParserState)
    (spawn : SpawnResult) (tempPatchesFolderExists : Bool) : ExecuteOutcome :=
  let env := mergeEnvironment baseEnv cfg.workspaceFolder cfg.pnpmStorePath
    cfg.environmentVariables
  match spawn.error with
  | some _ =>
    { exitCode := 1, threw := true, spawnInvoked := true, spawnArgs := st.pnpmArgs,
      spawnEnv := env, fsActions := [] }
  | none =>
    match spawn.status with
    | none =>
      { exitCode := 1, threw := true, spawnInvoked := true, spawnArgs := st.pnpmArgs,
        spawnEnv := env, fsActions := [] }
    | some s =>
      { exitCode := s, threw := false, spawnInvoked := true, spawnArgs := st.pnpmArgs,
        spawnEnv := env,
        fsActions := if s = 0 then postExecute st.commandName tempPatchesFolderExists
          else [] }

example : (validatePnpmUsage ["install"]).decision = Decision.reject := by decide
example : validatePnpmUsage ["--rush-skip-checks", "add", "foo"] =
    { decision := Decision.allow, args := ["add", "foo"], commandName := none } := by decide
example : validatePnpmUsage ["add", "--rush-skip-checks", "foo"] =
    { decision := Decision.allow, args := ["add", "foo"], commandName := none } := by decide
example : (validatePnpmUsage ["add", "foo", "--rush-skip-checks"]).decision =
    Decision.reject := by decide
example : (validatePnpmUsage ["patch-commit", "--rush-skip-checks"]).commandName = none := by
  decide
example : (validatePnpmUsage ["link", "x"]).decision = Decision.allowWithWarning := by decide
example : (validatePnpmUsage ["audit"]).commandName = some "audit" := by decide
example : (validatePnpmUsage []).decision = Decision.allow := by decide
example : (validatePnpmUsage ["--foo"]).decision = Decision.reject := by decide
example : (validatePnpmUsage ["-v"]).decision = Decision.allow := by decide
example : (validatePnpmUsage ["-v", "x"]).decision = Decision.reject := by decide
example : (construct ["install"]).pnpmArgs = none := by decide
example : (construct ["install"]).commandName = some "install" := by decide
example : mergeEnvironment [("KEY", "base")] "ws" none [⟨"KEY", "override", false⟩] =
    [("KEY", "base"), ("NPM_CONFIG_WORKSPACE_DIR", "ws")] := by decide

/-! ### Association-list lemmas for the environment merge -/

theorem envGet_envSet_self (env : EnvMap) (k v : String) :
    envGet (envSet env k v) k = some v := by
  induction env with
  | nil => simp [envSet, envGet]
  | cons p rest ih =>
    by_cases h : p.1 = k
    · simp [envSet, envGet, h]
    · simp [envSet, envGet, h, ih]

theorem envGet_envSet_ne (env : EnvMap) (kset k v : String) (h : kset ≠ k) :
    envGet (envSet env kset v) k = envGet env k := by
  induction env with
  | nil => simp [envSet, envGet, h]
  | cons p rest ih =>
    by_cases hp : p.1 = kset
    · simp [envSet, envGet, hp, h]
    · simp only [envSet, if_neg hp, envGet, ih]

theorem envGet_applyEnvEntry_ne (env : EnvMap) (e : EnvEntry) (k : String)
    (h : e.key ≠ k) :
    envGet (applyEnvEntry env e) k = envGet env k := by
  unfold applyEnvEntry
  split
  · exact envGet_envSet_ne env e.key k e.value h
  · split
    · exact envGet_envSet_ne env e.key k e.value h
    · rfl

theorem envGet_foldl_not_mem (l : List EnvEntry) (env : EnvMap) (k : String)
    (h : ∀ e ∈ l, e.key ≠ k) :
    envGet (l.foldl applyEnvEntry env) k = envGet env k := by
  induction l generalizing env with
  | nil => rfl
  | cons e rest ih =>
    rw [List.foldl_cons, ih _ (fun x hx => h x (List.mem_cons_of_mem e hx)),
      envGet_applyEnvEntry_ne env e k (h e (List.mem_cons_self e rest))]

theorem envGet_injectBuiltins_ne (baseEnv : EnvMap) (wf : String)
    (sp : Option String) (k : String)
    (h1 : k ≠ "NPM_CONFIG_WORKSPACE_DIR")
    (h2 : sp = none ∨ k ≠ "NPM_CONFIG_STORE_DIR") :
    envGet (injectBuiltins baseEnv wf sp) k = envGet baseEnv k := by
  cases sp with
  | none => exact envGet_envSet_ne baseEnv _ k wf (fun hc => h1 hc.symm)
  | some storePath =>
    have hk2 : k ≠ "NPM_CONFIG_STORE_DIR" := by
      rcases h2 with h | h
      · exact absurd h (by simp)
      · exact h
    unfold injectBuiltins
    rw [envGet_envSet_ne _ _ k storePath (fun hc => hk2 hc.symm),
      envGet_envSet_ne baseEnv _ k wf (fun hc => h1 hc.symm)]

theorem envGet_injectBuiltins_workspace (baseEnv : EnvMap) (wf : String)
    (sp : Option String) :
    envGet (injectBuiltins baseEnv wf sp) "NPM_CONFIG_WORKSPACE_DIR" = some wf := by
  cases sp with
  | none => exact envGet_envSet_self baseEnv _ wf
  | some storePath =>
    unfold injectBuiltins
    rw [envGet_envSet_ne _ _ _ storePath (by decide), envGet_envSet_self baseEnv _ wf]

theorem entries_split (entries : List EnvEntry) (e : EnvEntry)
    (hmem : e ∈ entries) (hnd : (entries.map EnvEntry.key).Nodup) :
    ∃ l1 l2, entries = l1 ++ e :: l2 ∧
      (∀ x ∈ l1, x.key ≠ e.key) ∧ (∀ x ∈ l2, x.key ≠ e.key) := by
  obtain ⟨l1, l2, rfl⟩ := List.append_of_mem hmem
  rw [List.map_append, List.map_cons] at hnd
  have hdisj := List.disjoint_of_nodup_append hnd
  have hnd2 := (List.nodup_append.mp hnd).2.1
  refine ⟨l1, l2, rfl, ?_, ?_⟩
  · intro x hx hk
    exact hdisj (List.mem_map_of_mem EnvEntry.key hx)
      (by rw [hk]; exact List.mem_cons_self _ _)
  · intro x hx hk
    exact (List.nodup_cons.mp hnd2).1 (hk ▸ List.mem_map_of_mem EnvEntry.key hx)

/-! ### Classification-engine lemmas -/

theorem isVerbPattern_ne_sentinel (v : String) (hv : isVerbPattern v = true) :
    v ≠ RUSH_SKIP_CHECKS_PARAMETER := by
  intro h
  rw [h] at hv
  exact absurd hv (by decide)

theorem isVerbPattern_ne_version (v : String) (hv : isVerbPattern v = true) :
    v ≠ "-v" ∧ v ≠ "--version" := by
  constructor <;> intro h <;> rw [h] at hv <;> exact absurd hv (by decide)

/-- On the verb path - a first token matching the lexical pattern, no help
flag anywhere, the bypass sentinel absent - the engine reduces to the policy
switch. -/
theorem validate_verbPath (v : String) (rest : List String)
    (hv : isVerbPattern v = true)
    (hh : "-h" ∉ v :: rest) (hH : "--help" ∉ v :: rest) (hq : "-?" ∉ v :: rest)
    (hsk : RUSH_SKIP_CHECKS_PARAMETER ∉ v :: rest) :
    validatePnpmUsage (v :: rest) = applyPolicy v (v :: rest) := by
  have hv1 : v ≠ RUSH_SKIP_CHECKS_PARAMETER := isVerbPattern_ne_sentinel v hv
  have hvv := isVerbPattern_ne_version v hv
  have hrest : rest[0]? ≠ some RUSH_SKIP_CHECKS_PARAMETER := by
    cases rest with
    | nil => simp
    | cons a t =>
      intro h
      have ha : a = RUSH_SKIP_CHECKS_PARAMETER := by simpa using h
      refine hsk (List.mem_cons_of_mem v ?_)
      rw [ha]
      exact List.mem_cons_self _ _
  unfold validatePnpmUsage
  rw [if_neg (by simp [List.head?_cons, hv1]), if_neg (by simp),
    if_neg (by push_neg; exact ⟨hh, hH, hq⟩),
    if_neg (by rintro ⟨-, h | h⟩; exacts [hvv.1 (by simpa using h), hvv.2 (by simpa using h)]),
    if_neg (by simp [List.headD_cons, hv]),
    if_neg (by simpa using hrest), if_neg hsk]
  simp [List.headD_cons]

/-! ### Claim theorems -/

/-- C1: the claim states that every rejected argument list short-circuits
before any process is spawned.  The code violates this: for the rejected
list `["install"]` the constructor swallows the thrown error and leaves the
`_pnpmArgs` field unassigned, and `execute` still reaches the
`Executable.spawnSync` call - the subprocess service is invoked, with the
unassigned argument-list field. -/
theorem c1_rejection_still_reaches_spawn :
    (validatePnpmUsage ["install"]).decision = Decision.reject ∧
    (construct ["install"]).pnpmArgs = none ∧
    (execute { workspaceFolder := "ws", pnpmStorePath := none, environmentVariables := [] }
      [] (construct ["install"]) { error := none, status := some 1 } false).spawnInvoked
      = true ∧
    (execute { workspaceFolder := "ws", pnpmStorePath := none, environmentVariables := [] }
      [] (construct ["install"]) { error := none, status := some 1 } false).spawnArgs
      = none := by
  decide

/-- C3: bypass sentinel placement.  A leading sentinel is stripped and the
list is allowed; a sentinel immediately after the verb is stripped and the
list is allowed; a sentinel anywhere later is rejected. -/
theorem c3_bypass_placement :
    validatePnpmUsage ["--rush-skip-checks", "add", "foo"] =
      { decision := Decision.allow, args := ["add", "foo"], commandName := none } ∧
    validatePnpmUsage ["add", "--rush-skip-checks", "foo"] =
      { decision := Decision.allow, args := ["add", "foo"], commandName := none } ∧
    (validatePnpmUsage ["add", "foo", "--rush-skip-checks"]).decision = Decision.reject := by
  decide

/-- C2 counterexample: for the input `["patch-commit", "--rush-skip-checks"]`
the first token matches the verb lexical pattern and classification returns
Allow, yet no verb is retained - the engine returns on the sentinel-splice
path before the `_commandName` field is assigned, so the retained verb is
not `patch-commit` as the claim states. -/
theorem c2_counterexample :
    isVerbPattern "patch-commit" = true ∧
    (validatePnpmUsage ["patch-commit", "--rush-skip-checks"]).decision = Decision.allow ∧
    (validatePnpmUsage ["patch-commit", "--rush-skip-checks"]).commandName = none := by
  decide

/-- C9 counterexample: `audit` is a known-safe verb, yet classification of
`["audit", "x", "--rush-skip-checks"]` returns Reject (misplaced bypass
sentinel), so the known-safe set is not allowed unconditionally. -/
theorem c9_counterexample :
    "audit" ∈ knownSafeVerbs ∧
    (validatePnpmUsage ["audit", "x", "--rush-skip-checks"]).decision = Decision.reject := by
  decide

/-- C4 counterexample: for the base environment that does not define the key,
the claim says an entry with the override flag cleared wins, but for the key
`NPM_CONFIG_WORKSPACE_DIR` the unconditionally injected workspace folder is
already present, so the entry does not take effect. -/
theorem c4_counterexample :
    envGet (mergeEnvironment [] "ws" none
        [{ key := "NPM_CONFIG_WORKSPACE_DIR", value := "override", override := false }])
      "NPM_CONFIG_WORKSPACE_DIR" = some "ws" ∧
    envGet ([] : EnvMap) "NPM_CONFIG_WORKSPACE_DIR" = none := by
  decide

/-- C7: every install-family verb is rejected when no help flag and no
bypass sentinel is present, and prepending the bypass sentinel as the first
token yields Allow with the sentinel removed. -/
theorem c7_install_family_reject (v : String) (rest : List String)
    (hm : v ∈ installFamilyVerbs)
    (hh : "-h" ∉ v :: rest) (hH : "--help" ∉ v :: rest) (hq : "-?" ∉ v :: rest)
    (hsk : RUSH_SKIP_CHECKS_PARAMETER ∉ v :: rest) :
    (validatePnpmUsage (v :: rest)).decision = Decision.reject ∧
    validatePnpmUsage (RUSH_SKIP_CHECKS_PARAMETER :: v :: rest) =
      { decision := Decision.allow, args := v :: rest, commandName := none } := by
  have hv : isVerbPattern v = true :=
    (by decide : ∀ x ∈ installFamilyVerbs, isVerbPattern x = true) v hm
  have hni : v ≠ "import" :=
    (by decide : ∀ x ∈ installFamilyVerbs, x ≠ "import") v hm
  constructor
  · rw [validate_verbPath v rest hv hh hH hq hsk]
    unfold applyPolicy
    rw [if_neg hni, if_pos hm]
  · unfold validatePnpmUsage
    rw [if_pos (by simp [List.head?_cons])]
    simp

/-- C7 witness: instantiation at the verb `add` with an empty tail. -/
theorem c7_install_family_reject_witness :
    "add" ∈ installFamilyVerbs ∧
    "-h" ∉ ["add"] ∧ "--help" ∉ ["add"] ∧ "-?" ∉ ["add"] ∧
    RUSH_SKIP_CHECKS_PARAMETER ∉ ["add"] ∧
    ((validatePnpmUsage ["add"]).decision = Decision.reject ∧
      validatePnpmUsage [RUSH_SKIP_CHECKS_PARAMETER, "add"] =
        { decision := Decision.allow, args := ["add"], commandName := none }) :=
  ⟨by decide, by decide, by decide, by decide, by decide,
    c7_install_family_reject "add" [] (by decide) (by decide) (by decide) (by decide)
      (by decide)⟩

/-- C8: every state-mutating verb is allowed with a warning when no help
flag and no bypass sentinel is present, and the argument list is left
unchanged, so the original verb token remains the first token. -/
theorem c8_state_mutating_warn (v : String) (rest : List String)
    (hm : v ∈ stateMutatingVerbs)
    (hh : "-h" ∉ v :: rest) (hH : "--help" ∉ v :: rest) (hq : "-?" ∉ v :: rest)
    (hsk : RUSH_SKIP_CHECKS_PARAMETER ∉ v :: rest) :
    (validatePnpmUsage (v :: rest)).decision = Decision.allowWithWarning ∧
    (validatePnpmUsage (v :: rest)).args = v :: rest := by
  have hv : isVerbPattern v = true :=
    (by decide : ∀ x ∈ stateMutatingVerbs, isVerbPattern x = true) v hm
  have hni : v ≠ "import" :=
    (by decide : ∀ x ∈ stateMutatingVerbs, x ≠ "import") v hm
  have hninst : v ∉ installFamilyVerbs :=
    (by decide : ∀ x ∈ stateMutatingVerbs, x ∉ installFamilyVerbs) v hm
  rw [validate_verbPath v rest hv hh hH hq hsk]
  unfold applyPolicy
  rw [if_neg hni, if_neg hninst, if_pos hm]
  exact ⟨rfl, rfl⟩

/-- C8 witness: instantiation at the verb `update` with tail `["x"]`. -/
theorem c8_state_mutating_warn_witness :
    "update" ∈ stateMutatingVerbs ∧
    "-h" ∉ ["update", "x"] ∧ "--help" ∉ ["update", "x"] ∧ "-?" ∉ ["update", "x"] ∧
    RUSH_SKIP_CHECKS_PARAMETER ∉ ["update", "x"] ∧
    ((validatePnpmUsage ["update", "x"]).decision = Decision.allowWithWarning ∧
      (validatePnpmUsage ["update", "x"]).args = ["update", "x"]) :=
  ⟨by decide, by decide, by decide, by decide, by decide,
    c8_state_mutating_warn "update" ["x"] (by decide) (by decide) (by decide) (by decide)
      (by decide)⟩

/-- C2 (amended): when classification reaches the verb-policy table - first
token matching the verb pattern, no help flags, the bypass sentinel absent -
the first token is retained as the verb (in particular on every Allow and
AllowWithWarning decision of the table); but when the bypass sentinel
appears immediately after the verb, classification returns Allow with the
sentinel removed and retains no verb. -/
theorem c2_verb_retention_amended (v : String) (rest : List String)
    (hv : isVerbPattern v = true)
    (hh : "-h" ∉ v :: rest) (hH : "--help" ∉ v :: rest) (hq : "-?" ∉ v :: rest) :
    (RUSH_SKIP_CHECKS_PARAMETER ∉ v :: rest →
      ((validatePnpmUsage (v :: rest)).decision = Decision.allow ∨
        (validatePnpmUsage (v :: rest)).decision = Decision.allowWithWarning) →
      (validatePnpmUsage (v :: rest)).commandName = some v) ∧
    validatePnpmUsage (v :: RUSH_SKIP_CHECKS_PARAMETER :: rest) =
      { decision := Decision.allow, args := v :: rest, commandName := none } := by
  have hvR : v ≠ RUSH_SKIP_CHECKS_PARAMETER := isVerbPattern_ne_sentinel v hv
  constructor
  · intro hsk _
    rw [validate_verbPath v rest hv hh hH hq hsk]
    unfold applyPolicy
    split_ifs <;> rfl
  · have hh2 : ¬("-h" ∈ v :: RUSH_SKIP_CHECKS_PARAMETER :: rest ∨
        "--help" ∈ v :: RUSH_SKIP_CHECKS_PARAMETER :: rest ∨
        "-?" ∈ v :: RUSH_SKIP_CHECKS_PARAMETER :: rest) := by
      simp only [List.mem_cons] at hh hH hq ⊢
      push_neg at hh hH hq ⊢
      exact ⟨⟨hh.1, by decide, hh.2⟩, ⟨hH.1, by decide, hH.2⟩, ⟨hq.1, by decide, hq.2⟩⟩
    unfold validatePnpmUsage
    rw [if_neg (by simp [List.head?_cons, hvR]), if_neg (by simp), if_neg hh2,
      if_neg (by rintro ⟨h1, -⟩; simp only [List.length_cons] at h1; omega),
      if_neg (by simp [List.headD_cons, hv]), if_pos (by simp)]
    simp

/-- C2 witness: instantiation of the amended claim at the verb `run` with
tail `["foo"]`. -/
theorem c2_verb_retention_amended_witness :
    isVerbPattern "run" = true ∧
    "-h" ∉ ["run", "foo"] ∧ "--help" ∉ ["run", "foo"] ∧ "-?" ∉ ["run", "foo"] ∧
    ((RUSH_SKIP_CHECKS_PARAMETER ∉ ["run", "foo"] →
        ((validatePnpmUsage ["run", "foo"]).decision = Decision.allow ∨
          (validatePnpmUsage ["run", "foo"]).decision = Decision.allowWithWarning) →
        (validatePnpmUsage ["run", "foo"]).commandName = some "run") ∧
      validatePnpmUsage ["run", RUSH_SKIP_CHECKS_PARAMETER, "foo"] =
        { decision := Decision.allow, args := ["run", "foo"], commandName := none }) :=
  ⟨by decide, by decide, by decide, by decide,
    c2_verb_retention_amended "run" ["foo"] (by decide) (by decide) (by decide) (by decide)⟩

/-- C9 (amended): every known-safe verb is allowed provided the bypass
sentinel does not occur at a position past the one immediately after the
verb; a sentinel at such a later position is rejected as misplaced, so the
original unconditional claim fails there. -/
theorem c9_known_safe_allow_amended (v : String) (rest : List String)
    (hm : v ∈ knownSafeVerbs)
    (hsk : RUSH_SKIP_CHECKS_PARAMETER ∉ rest.drop 1) :
    (validatePnpmUsage (v :: rest)).decision = Decision.allow := by
  have hv : isVerbPattern v = true :=
    (by decide : ∀ x ∈ knownSafeVerbs, isVerbPattern x = true) v hm
  have hvR : v ≠ RUSH_SKIP_CHECKS_PARAMETER := isVerbPattern_ne_sentinel v hv
  have hvv := isVerbPattern_ne_version v hv
  by_cases hhelp : "-h" ∈ v :: rest ∨ "--help" ∈ v :: rest ∨ "-?" ∈ v :: rest
  · unfold validatePnpmUsage
    rw [if_neg (by simp [List.head?_cons, hvR]), if_neg (by simp), if_pos hhelp]
  · by_cases hr : rest[0]? = some RUSH_SKIP_CHECKS_PARAMETER
    · unfold validatePnpmUsage
      rw [if_neg (by simp [List.head?_cons, hvR]), if_neg (by simp), if_neg hhelp,
        if_neg (by rintro ⟨-, h | h⟩
                   exacts [hvv.1 (by simpa using h), hvv.2 (by simpa using h)]),
        if_neg (by simp [List.headD_cons, hv]), if_pos (by simpa using hr)]
    · have hsk2 : RUSH_SKIP_CHECKS_PARAMETER ∉ v :: rest := by
        intro h
        rcases List.mem_cons.mp h with h1 | h2
        · exact hvR h1.symm
        · cases rest with
          | nil => simp at h2
          | cons a t =>
            rcases List.mem_cons.mp h2 with h3 | h4
            · exact hr (by simp [h3.symm])
            · exact hsk (by simpa using h4)
      push_neg at hhelp
      rw [validate_verbPath v rest hv hhelp.1 hhelp.2.1 hhelp.2.2 hsk2]
      have hni : v ≠ "import" :=
        (by decide : ∀ x ∈ knownSafeVerbs, x ≠ "import") v hm
      have hninst : v ∉ installFamilyVerbs :=
        (by decide : ∀ x ∈ knownSafeVerbs, x ∉ installFamilyVerbs) v hm
      have hnmut : v ∉ stateMutatingVerbs :=
        (by decide : ∀ x ∈ knownSafeVerbs, x ∉ stateMutatingVerbs) v hm
      unfold applyPolicy
      rw [if_neg hni, if_neg hninst, if_neg hnmut, if_pos hm]

/-- C9 witness: instantiation of the amended claim at the verb `audit` with
tail `["x"]`. -/
theorem c9_known_safe_allow_amended_witness :
    "audit" ∈ knownSafeVerbs ∧
    RUSH_SKIP_CHECKS_PARAMETER ∉ (["x"] : List String).drop 1 ∧
    (validatePnpmUsage ["audit", "x"]).decision = Decision.allow :=
  ⟨by decide, by decide, c9_known_safe_allow_amended "audit" ["x"] (by decide) (by decide)⟩

/-- C5: the exit status starts at the failure sentinel 1 and is overwritten
with the child status only when the spawn reports no error and a non-null
status; on a spawn-level error or a null status it remains 1 (and the
invocation throws). -/
theorem c5_exit_status_protocol (cfg : RushConfig) (baseEnv : EnvMap)
    (st : ParserState) (spawn : SpawnResult) (tpe : Bool) :
    ((spawn.error ≠ none ∨ spawn.status = none) →
      (execute cfg baseEnv st spawn tpe).exitCode = 1 ∧
      (execute cfg baseEnv st spawn tpe).threw = true) ∧
    (∀ s : Int, spawn.error = none → spawn.status = some s →
      (execute cfg baseEnv st spawn tpe).exitCode = s ∧
      (execute cfg baseEnv st spawn tpe).threw = false) := by
  rcases spawn with ⟨err, status⟩
  cases err with
  | some e =>
    exact ⟨fun _ => ⟨rfl, rfl⟩, fun s h1 _ => absurd h1 (by simp)⟩
  | none =>
    cases status with
    | none =>
      exact ⟨fun _ => ⟨rfl, rfl⟩, fun s _ h2 => by simp at h2⟩
    | some s0 =>
      refine ⟨fun h => ?_, fun s _ h2 => ?_⟩
      · rcases h with h | h
        · exact absurd rfl h
        · simp at h
      · obtain rfl : s0 = s := by simpa using h2
        exact ⟨rfl, rfl⟩

/-- C5 witness: with a spawn-level error the exit status stays 1; with a
clean spawn reporting status 7 the exit status becomes 7. -/
theorem c5_exit_status_protocol_witness :
    (execute { workspaceFolder := "ws", pnpmStorePath := none, environmentVariables := [] }
      [] (construct ["run"]) { error := some "boom", status := none } false).exitCode = 1 ∧
    (execute { workspaceFolder := "ws", pnpmStorePath := none, environmentVariables := [] }
      [] (construct ["run"]) { error := none, status := some 7 } false).exitCode = 7 :=
  ⟨((c5_exit_status_protocol
      { workspaceFolder := "ws", pnpmStorePath := none, environmentVariables := [] }
      [] (construct ["run"]) { error := some "boom", status := none } false).1
      (Or.inl (by simp))).1,
    ((c5_exit_status_protocol
      { workspaceFolder := "ws", pnpmStorePath := none, environmentVariables := [] }
      [] (construct ["run"]) { error := none, status := some 7 } false).2 7 rfl rfl).1⟩

/-- Characterization of the post-invocation synchronizer dispatch. -/
theorem postExecute_spec (cn : Option String) (tpe : Bool) :
    (postExecute cn tpe ≠ [] → cn = some "patch-commit" ∧ tpe = true) ∧
    postExecute (some "patch-commit") true =
      [FsAction.copyPatchesFolder, FsAction.syncShrinkwrapFile] := by
  constructor
  · intro h
    match cn with
    | none => exact absurd rfl h
    | some c =>
      by_cases hc : c = "patch-commit"
      · subst hc
        cases tpe
        · simp [postExecute] at h
        · exact ⟨rfl, rfl⟩
      · simp [postExecute, hc] at h
  · rfl

/-- C6: the post-invocation synchronizer acts only when the exit status is
exactly 0, the retained verb is exactly `patch-commit`, and the temporary
patches folder exists; in that case the recursive patches copy comes before
the shrinkwrap sync, and in every other case no file-system action is
performed. -/
theorem c6_post_invocation_sync (cfg : RushConfig) (baseEnv : EnvMap)
    (st : ParserState) (spawn : SpawnResult) (tpe : Bool) :
    ((execute cfg baseEnv st spawn tpe).fsActions ≠ [] →
      (execute cfg baseEnv st spawn tpe).exitCode = 0 ∧
      st.commandName = some "patch-commit" ∧ tpe = true ∧
      (execute cfg baseEnv st spawn tpe).fsActions =
        [FsAction.copyPatchesFolder, FsAction.syncShrinkwrapFile]) ∧
    ((execute cfg baseEnv st spawn tpe).exitCode = 0 →
      st.commandName = some "patch-commit" → tpe = true →
      (execute cfg baseEnv st spawn tpe).fsActions =
        [FsAction.copyPatchesFolder, FsAction.syncShrinkwrapFile]) := by
  rcases spawn with ⟨err, status⟩
  cases err with
  | some e =>
    refine ⟨fun h => absurd rfl h, fun h0 _ _ => ?_⟩
    have h1 : (1 : Int) = 0 := h0
    exact absurd h1 (by norm_num)
  | none =>
    cases status with
    | none =>
      refine ⟨fun h => absurd rfl h, fun h0 _ _ => ?_⟩
      have h1 : (1 : Int) = 0 := h0
      exact absurd h1 (by norm_num)
    | some s0 =>
      by_cases hs : s0 = 0
      · subst hs
        have hfs : (execute cfg baseEnv st { error := none, status := some 0 } tpe).fsActions
            = postExecute st.commandName tpe := rfl
        constructor
        · intro h
          rw [hfs] at h
          obtain ⟨hcn, htpe⟩ := (postExecute_spec st.commandName tpe).1 h
          refine ⟨rfl, hcn, htpe, ?_⟩
          rw [hfs, hcn, htpe]
          exact (postExecute_spec st.commandName tpe).2
        · intro _ hcn htpe
          rw [hfs, hcn, htpe]
          exact (postExecute_spec st.commandName tpe).2
      · constructor
        · intro h
          have hfs : (execute cfg baseEnv st { error := none, status := some s0 } tpe).fsActions
              = [] := by
            show (if s0 = 0 then postExecute st.commandName tpe else []) = []
            rw [if_neg hs]
          exact absurd hfs h
        · intro h0
          have h1 : s0 = 0 := h0
          exact absurd h1 hs

/-- C6 witness: a successful `patch-commit` invocation with the temporary
patches folder present performs the copy and then the sync. -/
theorem c6_post_invocation_sync_witness :
    (execute { workspaceFolder := "ws", pnpmStorePath := none, environmentVariables := [] }
      [] (construct ["patch-commit"]) { error := none, status := some 0 } true).fsActions =
      [FsAction.copyPatchesFolder, FsAction.syncShrinkwrapFile] :=
  (c6_post_invocation_sync
    { workspaceFolder := "ws", pnpmStorePath := none, environmentVariables := [] }
    [] (construct ["patch-commit"]) { error := none, status := some 0 } true).2
    (by decide) (by decide) rfl

/-- C4 (amended): for every declared entry whose key is distinct from the
unconditionally injected workspace-dir key (and from the store-dir key when
a store path is declared), the merge rule of the claim holds: with the
override flag cleared and the key already bound in the base environment the
base value is preserved, and otherwise the entry value wins.  For the
injected keys themselves the rule fails (see the counterexample and C10). -/
theorem c4_env_merge_amended (baseEnv : EnvMap) (wf : String) (sp : Option String)
    (entries : List EnvEntry) (k v : String) (f : Bool)
    (hnd : (entries.map EnvEntry.key).Nodup)
    (hmem : ({ key := k, value := v, override := f } : EnvEntry) ∈ entries)
    (hk1 : k ≠ "NPM_CONFIG_WORKSPACE_DIR")
    (hk2 : sp = none ∨ k ≠ "NPM_CONFIG_STORE_DIR") :
    (f = false → (envGet baseEnv k).isSome →
      envGet (mergeEnvironment baseEnv wf sp entries) k = envGet baseEnv k) ∧
    ((f = true ∨ envGet baseEnv k = none) →
      envGet (mergeEnvironment baseEnv wf sp entries) k = some v) := by
  obtain ⟨l1, l2, heq, h1, h2⟩ :=
    entries_split entries { key := k, value := v, override := f } hmem hnd
  subst heq
  have hinj : envGet (injectBuiltins baseEnv wf sp) k = envGet baseEnv k :=
    envGet_injectBuiltins_ne baseEnv wf sp k hk1 hk2
  have hl1 : envGet (l1.foldl applyEnvEntry (injectBuiltins baseEnv wf sp)) k
      = envGet baseEnv k := by
    rw [envGet_foldl_not_mem l1 _ k h1, hinj]
  have hmerge : mergeEnvironment baseEnv wf sp
        (l1 ++ { key := k, value := v, override := f } :: l2)
      = l2.foldl applyEnvEntry
          (applyEnvEntry (l1.foldl applyEnvEntry (injectBuiltins baseEnv wf sp))
            { key := k, value := v, override := f }) := by
    unfold mergeEnvironment
    rw [List.foldl_append, List.foldl_cons]
  constructor
  · rintro rfl hbs
    rw [hmerge, envGet_foldl_not_mem l2 _ k h2, applyEnvEntry]
    dsimp only
    rw [if_neg (by simp), if_neg (by rw [hl1]; exact Option.ne_none_iff_isSome.mpr hbs)]
    exact hl1
  · intro hor
    rw [hmerge, envGet_foldl_not_mem l2 _ k h2]
    cases f with
    | true =>
      rw [applyEnvEntry]
      dsimp only
      rw [if_pos rfl]
      exact envGet_envSet_self _ k v
    | false =>
      rcases hor with hor | hor
      · exact absurd hor (by simp)
      · rw [applyEnvEntry]
        dsimp only
        rw [if_neg (by simp), if_pos (by rw [hl1]; exact hor)]
        exact envGet_envSet_self _ k v

/-- C4 witness: for the key `KEY`, distinct from the injected keys, an entry
with the override flag cleared preserves the base value. -/
theorem c4_env_merge_amended_witness :
    (([({ key := "KEY", value := "override", override := false } : EnvEntry)].map
        EnvEntry.key).Nodup) ∧
    (({ key := "KEY", value := "override", override := false } : EnvEntry) ∈
      [({ key := "KEY", value := "override", override := false } : EnvEntry)]) ∧
    ("KEY" : String) ≠ "NPM_CONFIG_WORKSPACE_DIR" ∧
    ((false = false → (envGet [("KEY", "base")] "KEY").isSome →
        envGet (mergeEnvironment [("KEY", "base")] "ws" none
          [{ key := "KEY", value := "override", override := false }]) "KEY"
          = envGet [("KEY", "base")] "KEY") ∧
      ((false = true ∨ envGet [("KEY", "base")] "KEY" = none) →
        envGet (mergeEnvironment [("KEY", "base")] "ws" none
          [{ key := "KEY", value := "override", override := false }]) "KEY"
          = some "override")) :=
  ⟨by decide, by decide, by decide,
    c4_env_merge_amended [("KEY", "base")] "ws" none
      [{ key := "KEY", value := "override", override := false }] "KEY" "override" false
      (by decide) (by decide) (by decide) (Or.inl rfl)⟩

/-- C10: `NPM_CONFIG_WORKSPACE_DIR` is unconditionally bound to the
workspace folder before the declared entries are applied; a declared entry
for that key with the override flag cleared never takes effect - even over
an empty base environment - while a declared entry with the override flag
set replaces the workspace folder value. -/
theorem c10_workspace_dir_injection (baseEnv : EnvMap) (wf : String)
    (sp : Option String) (entries : List EnvEntry) (v : String)
    (hnd : (entries.map EnvEntry.key).Nodup) :
    envGet (mergeEnvironment baseEnv wf sp []) "NPM_CONFIG_WORKSPACE_DIR" = some wf ∧
    (({ key := "NPM_CONFIG_WORKSPACE_DIR", value := v, override := false } : EnvEntry)
        ∈ entries →
      envGet (mergeEnvironment baseEnv wf sp entries) "NPM_CONFIG_WORKSPACE_DIR"
        = some wf) ∧
    (({ key := "NPM_CONFIG_WORKSPACE_DIR", value := v, override := true } : EnvEntry)
        ∈ entries →
      envGet (mergeEnvironment baseEnv wf sp entries) "NPM_CONFIG_WORKSPACE_DIR"
        = some v) := by
  refine ⟨envGet_injectBuiltins_workspace baseEnv wf sp, ?_, ?_⟩
  · intro hmem
    obtain ⟨l1, l2, heq, h1, h2⟩ := entries_split entries _ hmem hnd
    subst heq
    unfold mergeEnvironment
    rw [List.foldl_append, List.foldl_cons, envGet_foldl_not_mem l2 _ _ h2]
    have hl1 : envGet (l1.foldl applyEnvEntry (injectBuiltins baseEnv wf sp))
        "NPM_CONFIG_WORKSPACE_DIR" = some wf := by
      rw [envGet_foldl_not_mem l1 _ _ h1, envGet_injectBuiltins_workspace]
    rw [applyEnvEntry]
    dsimp only
    rw [if_neg (by simp), if_neg (by rw [hl1]; simp)]
    exact hl1
  · intro hmem
    obtain ⟨l1, l2, heq, h1, h2⟩ := entries_split entries _ hmem hnd
    subst heq
    unfold mergeEnvironment
    rw [List.foldl_append, List.foldl_cons, envGet_foldl_not_mem l2 _ _ h2]
    rw [applyEnvEntry]
    dsimp only
    rw [if_pos rfl]
    exact envGet_envSet_self _ _ v

/-- C10 witness: over an empty base environment, an entry for the
workspace-dir key with the override flag cleared does not take effect. -/
theorem c10_workspace_dir_injection_witness :
    (([({ key := "NPM_CONFIG_WORKSPACE_DIR", value := "x", override := false } : EnvEntry)].map
        EnvEntry.key).Nodup) ∧
    (envGet (mergeEnvironment [] "ws" none []) "NPM_CONFIG_WORKSPACE_DIR" = some "ws" ∧
      (({ key := "NPM_CONFIG_WORKSPACE_DIR", value := "x", override := false } : EnvEntry)
          ∈ [({ key := "NPM_CONFIG_WORKSPACE_DIR", value := "x", override := false } : EnvEntry)] →
        envGet (mergeEnvironment [] "ws" none
            [{ key := "NPM_CONFIG_WORKSPACE_DIR", value := "x", override := false }])
          "NPM_CONFIG_WORKSPACE_DIR" = some "ws") ∧
      (({ key := "NPM_CONFIG_WORKSPACE_DIR", value := "x", override := true } : EnvEntry)
          ∈ [({ key := "NPM_CONFIG_WORKSPACE_DIR", value := "x", override := false } : EnvEntry)] →
        envGet (mergeEnvironment [] "ws" none
            [{ key := "NPM_CONFIG_WORKSPACE_DIR", value := "x", override := false }])
          "NPM_CONFIG_WORKSPACE_DIR" = some "x")) :=
  ⟨by decide,
    c10_workspace_dir_injection [] "ws" none
      [{ key := "NPM_CONFIG_WORKSPACE_DIR", value := "x", override := false }] "x"
      (by decide)⟩
